import Mathlib

/-!
Shallow embedding of `src/index.js` (nzorin1/ethmintscanner), an ERC-20
deployment scanner.  External effects (on-chain reads via the provider,
the two metadata HTTP APIs, the receipt wait, the webhook) are modelled by
an oracle `Env` recording the outcome each call would have; `none` means
the call fails (rejects / throws).  Every embedded function additionally
returns the list of external lookups it issued, in order, so that claims
about "no new network calls" and about primary/secondary ordering are
statable.  JavaScript truthiness (`x || 'N/A'`, `!tx.to`, `tx.data && ...`)
is embedded explicitly; JSON numbers are modelled as `Rat`.
-/

/-- A JavaScript value as it appears in the metadata fields: either a
string or a JSON number (modelled as `Rat`). -/
inductive JSVal where
  | str : String → JSVal
  | num : Rat → JSVal
deriving DecidableEq, Repr

/-- JavaScript truthiness of a `JSVal`: the empty string and the number 0
are falsy, everything else is truthy. -/
def JSVal.truthy : JSVal → Bool
  | .str s => s != ""
  | .num q => q != 0

/-- JavaScript truthiness of an optional string (`undefined`/`null` and
`""` are falsy). -/
def jsTruthyOptStr : Option String → Bool
  | none => false
  | some s => s != ""

/-- The token-metadata record built by `getTokenMetadata` in
`src/index.js` line 72 (and the placeholder of line 77).  `decimals` is a
number on the success path and the string token of line 77 on the error
path, hence `JSVal`; `totalSupply` is the string produced by
`ethers.utils.formatEther`. -/
structure TokenMetadata where
  name : String
  symbol : String
  decimals : JSVal
  totalSupply : String
  icon : String
  volume : JSVal
deriving DecidableEq, Repr

/-- Outcomes of the four read-only ERC-20 calls issued through the
provider (`contract.name()`, `contract.symbol()`, `contract.decimals()`,
`contract.totalSupply()`); `none` means the call rejects. -/
structure ChainReads where
  name : Option String
  symbol : Option String
  decimals : Option Nat
  totalSupply : Option Nat
deriving DecidableEq, Repr

/-- Body of a successful primary (CoinGecko) response:
`data.image?.small` and `data.market_data?.total_volume?.usd`, each
possibly absent. -/
structure CGResponse where
  imageSmall : Option String
  volumeUsd : Option Rat
deriving DecidableEq, Repr

/-- Body of a successful secondary (Etherscan) response:
`data.result?.[0]` (outer `Option`: is there a truthy first element) and
its `logo` field (inner `Option`: possibly absent). -/
structure ESResponse where
  resultHead : Option (Option String)
deriving DecidableEq, Repr

/-- Oracle for one resolution attempt: outcome of the four on-chain
reads, of the primary HTTP request (`none` = timeout / network error /
non-2xx throw), whether `ETHERSCAN_API_KEY` is configured (non-empty),
and the outcome of the secondary HTTP request. -/
structure Env where
  chain : ChainReads
  primary : Option CGResponse
  secondaryKey : Bool
  secondary : Option ESResponse
deriving DecidableEq, Repr

/-- The external lookups an embedded function can issue. -/
inductive ExtCall where
  | chainRead
  | primaryApi
  | secondaryApi
deriving DecidableEq, Repr

/-- `tokenCache` (a JS `Map` keyed by the address string), embedded as an
insertion-ordered association list. -/
def Cache : Type := List (String × TokenMetadata)

/-- `Map.prototype.get` / `has`: first (unique) binding with an exactly
equal key. -/
def cacheGet : Cache → String → Option TokenMetadata
  | [], _ => none
  | (k', v') :: rest, k => if k' = k then some v' else cacheGet rest k

/-- `Map.prototype.set`: overwrite in place when the exact key is
present, otherwise append. -/
def cacheSet : Cache → String → TokenMetadata → Cache
  | [], k, v => [(k, v)]
  | (k', v') :: rest, k, v =>
      if k' = k then (k, v) :: rest else (k', v') :: cacheSet rest k v

/-- `isERC20Contract` (`src/index.js` lines 27-40): `Promise.all` of the
four read-only calls succeeds iff every one of them does; the `catch`
turns any rejection into `false`, so the function is total. -/
def isERC20Contract (c : ChainReads) : Bool :=
  c.name.isSome && c.symbol.isSome && c.decimals.isSome && c.totalSupply.isSome

/-- Digits of the fractional part with trailing zeros removed
(`ethers.utils.formatEther` behaviour). -/
def dropTrailingZeros : List Char → List Char
  | [] => []
  | c :: cs =>
      match dropTrailingZeros cs with
      | [] => if c = '0' then [] else [c]
      | rest => c :: rest

/-- `ethers.utils.formatEther`: decimal string of `n / 10^18`, fractional
part padded to 18 digits then stripped of trailing zeros, `"0"` kept when
all zeros (so `formatEther 0 = "0.0"`). -/
def formatEther (n : Nat) : String :=
  let whole := Nat.repr (n / 10 ^ 18)
  let fracRepr := Nat.repr (n % 10 ^ 18)
  let fracDigits := List.replicate (18 - fracRepr.length) '0' ++ fracRepr.data
  let frac :=
    match dropTrailingZeros fracDigits with
    | [] => "0"
    | cs => String.mk cs
  whole ++ "." ++ frac

/-- Lines 53-71 of `src/index.js`: starting from `icon = 'N/A'`,
`volume = 'N/A'`, attempt the primary API; on success assign
`icon = data.image?.small || 'N/A'` and
`volume = data.market_data?.total_volume?.usd || 'N/A'`; on failure, if
an Etherscan key is configured, attempt the secondary API and on a truthy
`result[0]` assign `icon = result[0].logo || 'N/A'`.  Returns
(icon, volume, external calls issued in order). -/
def fetchIconVolume (env : Env) : String × JSVal × List ExtCall :=
  match env.primary with
  | some cg =>
      let icon :=
        match cg.imageSmall with
        | some s => if s != "" then s else "N/A"
        | none => "N/A"
      let volume :=
        match cg.volumeUsd with
        | some q => if q != 0 then JSVal.num q else JSVal.str ("N/A")
        | none => JSVal.str ("N/A")
      (icon, volume, [ExtCall.primaryApi])
  | none =>
      if env.secondaryKey then
        match env.secondary with
        | some es =>
            let icon :=
              match es.resultHead with
              | some logo =>
                  match logo with
                  | some s => if s != "" then s else "N/A"
                  | none => "N/A"
              | none => "N/A"
            (icon, JSVal.str ("N/A"), [ExtCall.primaryApi, ExtCall.secondaryApi])
        | none => ("N/A", JSVal.str ("N/A"), [ExtCall.primaryApi, ExtCall.secondaryApi])
      else
        ("N/A", JSVal.str ("N/A"), [ExtCall.primaryApi])

/-- The record returned by the `catch` of `getTokenMetadata`
(`src/index.js` line 77). -/
def placeholderMetadata : TokenMetadata :=
  { name := "Unknown", symbol := "Unknown", decimals := JSVal.str ("N/A"),
    totalSupply := "N/A", icon := "N/A", volume := JSVal.str ("N/A") }

/-- `getTokenMetadata` (`src/index.js` lines 43-79): cached value when
the exact address string is already a key of `tokenCache`; otherwise the
`Promise.all` of the four on-chain reads (failure of any one jumps to the
`catch`, which returns the placeholder without touching the cache), then
the icon/volume fallback chain, then `tokenCache.set`.  Returns
(metadata, cache after the call, external calls issued in order). -/
def getTokenMetadata (env : Env) (cache : Cache) (addr : String) :
    TokenMetadata × Cache × List ExtCall :=
  match cacheGet cache addr with
  | some m => (m, cache, [])
  | none =>
      match env.chain.name, env.chain.symbol, env.chain.decimals, env.chain.totalSupply with
      | some nm, some sym, some dec, some ts =>
          let r := fetchIconVolume env
          let metadata : TokenMetadata :=
            { name := nm, symbol := sym, decimals := JSVal.num dec,
              totalSupply := formatEther ts, icon := r.1, volume := r.2.1 }
          (metadata, cacheSet cache addr metadata, ExtCall.chainRead :: r.2.2)
      | _, _, _, _ => (placeholderMetadata, cache, [ExtCall.chainRead])

/-- A pending transaction as returned by `provider.getTransaction`:
`toField` models `tx.to`, `null` for a creation (an empty string would
also be falsy for `!tx.to`); `data` is the hex payload (`"0x"` when
empty). -/
structure Tx where
  toField : Option String
  data : String
deriving DecidableEq, Repr

/-- The receipt `tx.wait()` resolves to. -/
structure Receipt where
  contractAddress : Option String
deriving DecidableEq, Repr

/-- Oracle for one `pending` notification: the `getTransaction` result
(`none` = `null`/`undefined`), the `tx.wait()` outcome (`none` = the wait
rejected and the outer `catch` logged it), and the outcomes of the four
conformance reads against the created address. -/
structure PendingEnv where
  tx : Option Tx
  receipt : Option Receipt
  chain : ChainReads
deriving DecidableEq, Repr

/-- Observable steps of the pending handler. -/
inductive HandlerAction where
  | waitReceipt
  | conformanceCheck
  | notifyToken (addr : String) (txHash : String)
deriving DecidableEq, Repr

/-- The `provider.on('pending', ...)` callback (`src/index.js` lines
113-129): fetch the transaction; when
`tx && !tx.to && tx.data && tx.data !== '0x'` wait for the receipt; when
the receipt reports a created address run `isERC20Contract` and, only on
`true`, send the notification.  All rejections land in the outer `catch`
(log and drop), so the handler is total. -/
def pendingHandler (env : PendingEnv) (txHash : String) : List HandlerAction :=
  match env.tx with
  | none => []
  | some tx =>
      if !jsTruthyOptStr tx.toField && tx.data != "" && tx.data != "0x" then
        match env.receipt with
        | none => [HandlerAction.waitReceipt]
        | some rc =>
            match rc.contractAddress with
            | none => [HandlerAction.waitReceipt]
            | some addr =>
                HandlerAction.waitReceipt :: HandlerAction.conformanceCheck ::
                  (if isERC20Contract env.chain then [HandlerAction.notifyToken addr txHash] else [])
      else []

/-- The subscription entry point an error handler can re-invoke. -/
inductive Callback where
  | listenForNewTokens
deriving DecidableEq, Repr

/-- Observable actions of the websocket error handler. -/
inductive ErrorAction where
  | logError
  | schedule (delayMs : Nat) (cb : Callback)
  | exitProcess
deriving DecidableEq, Repr

/-- The `provider.websocket.on('error', ...)` handler (`src/index.js`
lines 130-133): log the error, then `setTimeout(listenForNewTokens, 5000)`. -/
def websocketErrorHandler : List ErrorAction :=
  [ErrorAction.logError, ErrorAction.schedule 5000 Callback.listenForNewTokens]

/-- Actions accumulated over `n` consecutive transport errors: each
re-invocation of `listenForNewTokens` installs the same handler, so every
error appends the same log-and-reschedule pair. -/
def errorTrace : Nat → List ErrorAction
  | 0 => []
  | n + 1 => errorTrace n ++ websocketErrorHandler

/-- On-chain reads that all succeed, for concrete instantiations. -/
def chainOk : ChainReads :=
  { name := some ("Tok"), symbol := some ("TK"), decimals := some 18, totalSupply := some 0 }

/-- On-chain reads where `contract.name()` rejects while the other three
succeed. -/
def chainNameFails : ChainReads :=
  { name := none, symbol := some ("TK"), decimals := some 18, totalSupply := some 0 }

/-- On-chain reads where only `contract.totalSupply()` rejects. -/
def chainSupplyFails : ChainReads :=
  { name := some ("Tok"), symbol := some ("TK"), decimals := some 18, totalSupply := none }

/-- Resolution attempt in which the on-chain reads succeed and the
primary API request fails, with no secondary key configured. -/
def envOk : Env :=
  { chain := chainOk, primary := none, secondaryKey := false, secondary := none }

/-- Resolution attempt in which `contract.name()` rejects. -/
def envFail : Env :=
  { chain := chainNameFails, primary := none, secondaryKey := false, secondary := none }

/-- Primary response whose `market_data.total_volume.usd` is present and
equal to 0 and whose `image.small` is a non-empty URL. -/
def cgVolZero : CGResponse :=
  { imageSmall := some ("http://icon.png"), volumeUsd := some 0 }

/-- Resolution attempt with a successful primary response carrying a
zero volume. -/
def envVolZero : Env :=
  { chain := chainOk, primary := some cgVolZero, secondaryKey := false, secondary := none }

/-- Primary response with a present non-empty icon and a present
non-zero volume. -/
def cgPresent : CGResponse :=
  { imageSmall := some ("http://i.png"), volumeUsd := some 5 }

/-- Resolution attempt with a successful primary response carrying both
fields. -/
def envVolFive : Env :=
  { chain := chainOk, primary := some cgPresent, secondaryKey := false, secondary := none }

/-- Resolution attempt where the primary request fails, a secondary key
is configured, and the secondary lookup succeeds with a logo. -/
def envSecOnly : Env :=
  { chain := chainOk, primary := none, secondaryKey := true,
    secondary := some { resultHead := some (some ("http://logo.png")) } }

/-- A contract-creation transaction: `to` is null, payload non-empty. -/
def txCreate : Tx :=
  { toField := none, data := "0x6080" }

/-- A pending notification whose transaction is a creation, whose
receipt reports a created address, and whose conformance reads all
succeed. -/
def pendEnvOk : PendingEnv :=
  { tx := some txCreate, receipt := some { contractAddress := some ("0xdead") },
    chain := chainOk }

theorem cacheGet_cacheSet_self (c : Cache) (k : String) (v : TokenMetadata) :
    cacheGet (cacheSet c k v) k = some v := by
  induction c with
  | nil => simp [cacheSet, cacheGet]
  | cons hd tl ih =>
      obtain ⟨k', v'⟩ := hd
      by_cases h : k' = k
      · simp [cacheSet, cacheGet, h]
      · simp [cacheSet, cacheGet, h, ih]

theorem cacheGet_cacheSet_ne (c : Cache) (k1 k2 : String) (v : TokenMetadata)
    (h : k1 ≠ k2) :
    cacheGet (cacheSet c k1 v) k2 = cacheGet c k2 := by
  induction c with
  | nil => simp [cacheSet, cacheGet, h]
  | cons hd tl ih =>
      obtain ⟨k', v'⟩ := hd
      by_cases hk : k' = k1
      · simp [cacheSet, cacheGet, hk, h]
      · by_cases hk2 : k' = k2
        · simp [cacheSet, cacheGet, hk, hk2, Ne.symm h]
        · simp [cacheSet, cacheGet, hk, hk2, ih]

/-- C1: `getTokenMetadata` is a total function (it always returns a
`TokenMetadata` record — the embedding of its outer `catch`), and
whenever the address is not cached and any of the four on-chain reads
(name, symbol, decimals, totalSupply) fails, it returns exactly the
placeholder record with name `Unknown`, symbol `Unknown`, and the
sentinel string in the decimals, totalSupply, icon and volume fields,
instead of propagating the failure. -/
theorem getTokenMetadata_placeholder_on_read_failure (env : Env) (cache : Cache)
    (addr : String) (hc : cacheGet cache addr = none)
    (hfail : env.chain.name = none ∨ env.chain.symbol = none ∨
      env.chain.decimals = none ∨ env.chain.totalSupply = none) :
    (getTokenMetadata env cache addr).1 = placeholderMetadata := by
  simp only [getTokenMetadata, hc]
  split
  · rcases hfail with h | h | h | h <;> simp_all
  · rfl

/-- Witness for C1: with `contract.name()` rejecting, the resolver
returns the placeholder record. -/
theorem getTokenMetadata_placeholder_on_read_failure_witness :
    (getTokenMetadata envFail [] ("0xf")).1 = placeholderMetadata :=
  getTokenMetadata_placeholder_on_read_failure envFail [] ("0xf") rfl (Or.inl rfl)

/-- C2: when the four on-chain reads of a first `getTokenMetadata` call
succeed (so its result is cached), a second sequential call on the same
address — under any behaviour `env2` of the external world — issues no
external lookups (empty call list: no on-chain read, no primary or
secondary API request) and returns a value structurally equal to the
first call's result, leaving the cache unchanged. -/
theorem getTokenMetadata_second_call_uses_cache (env1 env2 : Env) (cache : Cache)
    (addr : String)
    (h1 : env1.chain.name.isSome = true) (h2 : env1.chain.symbol.isSome = true)
    (h3 : env1.chain.decimals.isSome = true) (h4 : env1.chain.totalSupply.isSome = true) :
    getTokenMetadata env2 (getTokenMetadata env1 cache addr).2.1 addr
      = ((getTokenMetadata env1 cache addr).1, (getTokenMetadata env1 cache addr).2.1,
          ([] : List ExtCall)) := by
  rcases hc : cacheGet cache addr with _ | m
  · obtain ⟨nm, hnm⟩ := Option.isSome_iff_exists.mp h1
    obtain ⟨sym, hsym⟩ := Option.isSome_iff_exists.mp h2
    obtain ⟨dec, hdec⟩ := Option.isSome_iff_exists.mp h3
    obtain ⟨ts, hts⟩ := Option.isSome_iff_exists.mp h4
    simp [getTokenMetadata, hc, hnm, hsym, hdec, hts, cacheGet_cacheSet_self]
  · simp [getTokenMetadata, hc]

/-- Witness for C2: after a successful resolution of an address from an
empty cache, a repeat call (even with every external source failing)
returns the same record with no external calls. -/
theorem getTokenMetadata_second_call_uses_cache_witness :
    getTokenMetadata envFail (getTokenMetadata envOk [] ("0xm")).2.1 ("0xm")
      = ((getTokenMetadata envOk [] ("0xm")).1, (getTokenMetadata envOk [] ("0xm")).2.1,
          ([] : List ExtCall)) :=
  getTokenMetadata_second_call_uses_cache envOk envFail [] ("0xm") rfl rfl rfl rfl

/-- C3: `isERC20Contract` is total (its `catch` maps every rejection to
`false`, so it never throws) and returns `true` exactly when all four
read-only calls succeed; if any single one fails — even with the other
three succeeding — it returns `false`. -/
theorem isERC20Contract_true_iff_all_reads_succeed (c : ChainReads) :
    (isERC20Contract c = true ↔
      c.name.isSome = true ∧ c.symbol.isSome = true ∧ c.decimals.isSome = true ∧
        c.totalSupply.isSome = true)
    ∧ ((c.name = none ∨ c.symbol = none ∨ c.decimals = none ∨ c.totalSupply = none) →
        isERC20Contract c = false) := by
  constructor
  · simp [isERC20Contract, and_assoc]
  · rintro (h | h | h | h) <;> simp [isERC20Contract, h]

/-- Witness for C3: three calls succeeding and `totalSupply()` rejecting
yields `false`. -/
theorem isERC20Contract_true_iff_all_reads_succeed_witness :
    isERC20Contract chainSupplyFails = false :=
  (isERC20Contract_true_iff_all_reads_succeed chainSupplyFails).2
    (Or.inr (Or.inr (Or.inr rfl)))

/-- C4: for a fetched pending transaction (with `to` either absent or a
non-empty address string, as the provider delivers), the handler
proceeds past the guard — i.e. waits for the receipt — exactly when `to`
is absent and the data payload is non-empty (neither the empty string
nor the empty hex payload `0x`); and whenever `to` is present the
handler does nothing at all: in particular it never reaches the ERC-20
conformance check, regardless of the data payload. -/
theorem pendingHandler_contract_creation_iff (env : PendingEnv) (txHash : String)
    (tx : Tx) (htx : env.tx = some tx)
    (haddr : ∀ s, tx.toField = some s → s ≠ "") :
    (HandlerAction.waitReceipt ∈ pendingHandler env txHash ↔
      tx.toField = none ∧ tx.data ≠ "" ∧ tx.data ≠ "0x")
    ∧ (∀ s, tx.toField = some s →
        pendingHandler env txHash = [] ∧
        HandlerAction.conformanceCheck ∉ pendingHandler env txHash) := by
  have hmem : (!jsTruthyOptStr tx.toField && tx.data != "" && tx.data != "0x") = true →
      HandlerAction.waitReceipt ∈ pendingHandler env txHash := by
    intro hcond
    simp only [pendingHandler, htx, hcond, if_true]
    split
    · simp
    · split <;> simp
  have hempty : (!jsTruthyOptStr tx.toField && tx.data != "" && tx.data != "0x") = false →
      pendingHandler env txHash = [] := by
    intro hcond
    simp [pendingHandler, htx, hcond]
  have hcond_iff : (!jsTruthyOptStr tx.toField && tx.data != "" && tx.data != "0x") = true ↔
      (tx.toField = none ∧ tx.data ≠ "" ∧ tx.data ≠ "0x") := by
    rcases hto : tx.toField with _ | s
    · simp [jsTruthyOptStr, hto]
    · have hs := haddr s hto
      simp [jsTruthyOptStr, hto, hs]
  constructor
  · constructor
    · intro hmem'
      cases hcond : (!jsTruthyOptStr tx.toField && tx.data != "" && tx.data != "0x") with
      | false => rw [hempty hcond] at hmem'; cases hmem'
      | true => exact hcond_iff.mp hcond
    · intro hrhs
      exact hmem (hcond_iff.mpr hrhs)
  · intro s hs
    have hsne := haddr s hs
    have hcond : (!jsTruthyOptStr tx.toField && tx.data != "" && tx.data != "0x") = false := by
      simp [jsTruthyOptStr, hs, hsne]
    exact ⟨hempty hcond, by simp [hempty hcond]⟩

/-- Witness for C4: a creation transaction (null `to`, non-empty
payload) makes the handler wait for the receipt. -/
theorem pendingHandler_contract_creation_iff_witness :
    HandlerAction.waitReceipt ∈ pendingHandler pendEnvOk ("0xhash") :=
  (pendingHandler_contract_creation_iff pendEnvOk ("0xhash") txCreate rfl
      (fun _ h => nomatch h)).1.mpr ⟨rfl, by decide, by decide⟩

/-- C5: when the address is not cached and any of the four on-chain
reads fails, `getTokenMetadata` returns the placeholder, the cache is
returned unchanged, and only the on-chain read was attempted; hence a
later call on the same address (with the same resulting cache)
re-attempts resolution, issuing the on-chain read again. -/
theorem getTokenMetadata_read_failure_leaves_cache_unchanged (env : Env) (cache : Cache)
    (addr : String) (hc : cacheGet cache addr = none)
    (hfail : env.chain.name = none ∨ env.chain.symbol = none ∨
      env.chain.decimals = none ∨ env.chain.totalSupply = none) :
    getTokenMetadata env cache addr = (placeholderMetadata, cache, [ExtCall.chainRead])
    ∧ ∀ env2 : Env, ExtCall.chainRead ∈ (getTokenMetadata env2 cache addr).2.2 := by
  constructor
  · simp only [getTokenMetadata, hc]
    split
    · rcases hfail with h | h | h | h <;> simp_all
    · rfl
  · intro env2
    simp only [getTokenMetadata, hc]
    split
    · simp
    · simp

/-- Witness for C5: a failing resolution from the empty cache leaves it
empty, and a retry (here under an environment whose reads succeed)
issues the on-chain read again. -/
theorem getTokenMetadata_read_failure_leaves_cache_unchanged_witness :
    getTokenMetadata envFail [] ("0xf5") = (placeholderMetadata, [], [ExtCall.chainRead])
    ∧ ExtCall.chainRead ∈ (getTokenMetadata envOk [] ("0xf5")).2.2 :=
  ⟨(getTokenMetadata_read_failure_leaves_cache_unchanged envFail [] ("0xf5") rfl
      (Or.inl rfl)).1,
    (getTokenMetadata_read_failure_leaves_cache_unchanged envFail [] ("0xf5") rfl
      (Or.inl rfl)).2 envOk⟩

/-- C6: in the icon/volume enrichment of `getTokenMetadata`, the primary
API is always attempted, and attempted before the secondary; the
secondary is attempted exactly when the primary fails and a secondary
API key is configured; and the results are never merged field-by-field:
whenever the primary fails (so any icon can only come from the secondary
lookup), the volume field is left at the sentinel — volume only ever
comes from the primary. -/
theorem fetchIconVolume_primary_before_secondary (env : Env) :
    ((fetchIconVolume env).2.2 = [ExtCall.primaryApi] ∨
      (fetchIconVolume env).2.2 = [ExtCall.primaryApi, ExtCall.secondaryApi])
    ∧ ((fetchIconVolume env).2.2 = [ExtCall.primaryApi, ExtCall.secondaryApi] ↔
        env.primary = none ∧ env.secondaryKey = true)
    ∧ (env.primary = none → (fetchIconVolume env).2.1 = JSVal.str ("N/A")) := by
  rcases hp : env.primary with _ | cg
  · by_cases hk : env.secondaryKey
    · rcases hs : env.secondary with _ | es
      · simp [fetchIconVolume, hp, hk, hs]
      · simp [fetchIconVolume, hp, hk, hs]
    · simp [fetchIconVolume, hp, hk]
  · simp [fetchIconVolume, hp]

/-- Witness for C6: failed primary with a configured secondary key —
both lookups attempted in order, and a successful secondary lookup still
leaves the volume at the sentinel. -/
theorem fetchIconVolume_primary_before_secondary_witness :
    (fetchIconVolume envSecOnly).2.2 = [ExtCall.primaryApi, ExtCall.secondaryApi]
    ∧ (fetchIconVolume envSecOnly).2.1 = JSVal.str ("N/A") :=
  ⟨(fetchIconVolume_primary_before_secondary envSecOnly).2.1.mpr ⟨rfl, rfl⟩,
    (fetchIconVolume_primary_before_secondary envSecOnly).2.2 rfl⟩

/-- C7 counterexample: the code performs no case normalization of the
cache key (`tokenCache.has(contractAddress)` uses the exact string), so
resolving the two case-variants `0xAB` and `0xab` of the same address
from an empty cache produces TWO cache entries, and the second call
performs external lookups, contradicting the claim that a single
(case-insensitive) entry is used. -/
theorem getTokenMetadata_cache_not_case_normalized :
    ((getTokenMetadata envOk (getTokenMetadata envOk [] ("0xAB")).2.1 ("0xab")).2.1).length = 2
    ∧ (getTokenMetadata envOk (getTokenMetadata envOk [] ("0xAB")).2.1 ("0xab")).2.2 ≠ [] := by
  decide

/-- C7 amended: cache entries are identified by the exact, case-sensitive
address string — no case normalization is applied — so updating the
entry of one spelling never touches the entry of a different spelling
(in particular of a case-variant), and a case-variant that is not itself
a key is resolved with fresh external lookups. -/
theorem cacheSet_exact_key_case_sensitive (env : Env) (c : Cache) (a1 a2 : String)
    (v : TokenMetadata) (h : a1 ≠ a2) :
    cacheGet (cacheSet c a1 v) a2 = cacheGet c a2
    ∧ (cacheGet c a2 = none →
        ExtCall.chainRead ∈ (getTokenMetadata env (cacheSet c a1 v) a2).2.2) := by
  refine ⟨cacheGet_cacheSet_ne c a1 a2 v h, ?_⟩
  intro h2
  simp only [getTokenMetadata, cacheGet_cacheSet_ne c a1 a2 v h, h2]
  split
  · simp
  · simp

/-- Witness for C7 amended: caching under `0xAB` leaves `0xab` absent,
and resolving `0xab` issues the on-chain read. -/
theorem cacheSet_exact_key_case_sensitive_witness :
    cacheGet (cacheSet ([] : Cache) ("0xAB") placeholderMetadata) ("0xab")
      = cacheGet ([] : Cache) ("0xab")
    ∧ ExtCall.chainRead ∈
        (getTokenMetadata envOk (cacheSet ([] : Cache) ("0xAB") placeholderMetadata)
          ("0xab")).2.2 :=
  ⟨(cacheSet_exact_key_case_sensitive envOk [] ("0xAB") ("0xab") placeholderMetadata
      (by decide)).1,
    (cacheSet_exact_key_case_sensitive envOk [] ("0xAB") ("0xab") placeholderMetadata
      (by decide)).2 rfl⟩

/-- C8 counterexample: the extraction `...total_volume?.usd || 'N/A'`
uses JavaScript truthiness, so a primary response whose volume is
present and equal to 0 yields the sentinel string, not the number 0:
the sentinel is NOT distinct from a genuine zero.  (The present non-empty
icon URL of the same response is returned as-is.) -/
theorem getTokenMetadata_volume_zero_maps_to_sentinel :
    envVolZero.primary = some { imageSmall := some ("http://icon.png"), volumeUsd := some 0 }
    ∧ (getTokenMetadata envVolZero [] ("0xc")).1.volume = JSVal.str ("N/A")
    ∧ (getTokenMetadata envVolZero [] ("0xc")).1.icon = "http://icon.png" := by
  decide

/-- C8 amended: when the primary API responds successfully, fields
default to the sentinel exactly when absent OR JavaScript-falsy: a
present non-empty icon URL is returned as-is and a present non-zero
volume is returned as-is, but a present volume equal to 0 (like a
present empty-string icon) is replaced by the sentinel. -/
theorem fetchIconVolume_truthy_field_defaulting (env : Env) (cg : CGResponse)
    (hp : env.primary = some cg) :
    (∀ u, cg.imageSmall = some u → u ≠ "" → (fetchIconVolume env).1 = u)
    ∧ (cg.imageSmall = none → (fetchIconVolume env).1 = "N/A")
    ∧ (cg.imageSmall = some ("") → (fetchIconVolume env).1 = "N/A")
    ∧ (∀ q : Rat, cg.volumeUsd = some q → q ≠ 0 → (fetchIconVolume env).2.1 = JSVal.num q)
    ∧ (cg.volumeUsd = none → (fetchIconVolume env).2.1 = JSVal.str ("N/A"))
    ∧ (cg.volumeUsd = some 0 → (fetchIconVolume env).2.1 = JSVal.str ("N/A")) := by
  refine ⟨?_, ?_, ?_, ?_, ?_, ?_⟩
  · intro u hu hne
    simp [fetchIconVolume, hp, hu, hne]
  · intro hu
    simp [fetchIconVolume, hp, hu]
  · intro hu
    simp [fetchIconVolume, hp, hu]
  · intro q hq hne
    simp [fetchIconVolume, hp, hq, hne]
  · intro hq
    simp [fetchIconVolume, hp, hq]
  · intro hq
    simp [fetchIconVolume, hp, hq]

/-- Witness for C8 amended: a present non-empty icon and a present
non-zero volume are both returned as-is. -/
theorem fetchIconVolume_truthy_field_defaulting_witness :
    (fetchIconVolume envVolFive).1 = "http://i.png"
    ∧ (fetchIconVolume envVolFive).2.1 = JSVal.num 5 :=
  ⟨(fetchIconVolume_truthy_field_defaulting envVolFive cgPresent rfl).1
      ("http://i.png") rfl (by decide),
    (fetchIconVolume_truthy_field_defaulting envVolFive cgPresent rfl).2.2.2.1
      5 rfl (by decide)⟩

/-- C9: the websocket error handler logs the error and schedules a
re-invocation of the subscription entry point `listenForNewTokens` after
a fixed 5000 ms delay; since every re-invocation installs the same
handler, after any number of consecutive transport errors the trace
still appends the same log-and-reschedule pair, contains another
5000 ms reschedule of `listenForNewTokens`, and never contains a process
exit. -/
theorem websocketErrorHandler_logs_and_reschedules (n : Nat) :
    websocketErrorHandler
      = [ErrorAction.logError, ErrorAction.schedule 5000 Callback.listenForNewTokens]
    ∧ errorTrace (n + 1) = errorTrace n ++ websocketErrorHandler
    ∧ ErrorAction.schedule 5000 Callback.listenForNewTokens ∈ errorTrace (n + 1)
    ∧ ErrorAction.exitProcess ∉ errorTrace (n + 1) := by
  refine ⟨rfl, rfl, ?_, ?_⟩
  · simp [errorTrace, websocketErrorHandler]
  · induction n with
    | zero => simp [errorTrace, websocketErrorHandler]
    | succ m ih => simp [errorTrace, websocketErrorHandler] at ih ⊢; exact ih

/-- C10: when `provider.getTransaction` resolves to null or undefined,
the pending handler completes without error (it is a total function)
doing nothing at all — no receipt wait, no conformance check, no
notification — for every receipt outcome, conformance environment and
transaction hash. -/
theorem pendingHandler_null_transaction_skipped (receipt : Option Receipt)
    (chain : ChainReads) (txHash : String) :
    pendingHandler { tx := none, receipt := receipt, chain := chain } txHash = [] := rfl
